import Mathlib

/-!
Verification development for the BackofficeApp repository: a shallow
embedding of its serializer validation, file-attachment lifecycle,
queryset filtering and token-cookie logic, with theorems settling the
spec's testable properties against the embedded code.
-/

namespace Backoffice

/-! ### Category hierarchy (course_management/models.py, Category)

A category has an id and an optional parent.  The acyclicity hypothesis of
the spec (every parent chain reaches a null parent) is embedded in the
type: a `Category` value is a finite chain ending at a root. -/

inductive Category where
  | root (id : Nat)
  | child (id : Nat) (parent : Category)
deriving DecidableEq, Repr

/-- Optional parent link, as `Category.parent` in the Django model. -/
def Category.parent : Category → Option Category
  | .root _ => none
  | .child _ p => some p

/-- All strict ancestors of a category, obtained by climbing parent links. -/
def Category.ancestors : Category → List Category
  | .root _ => []
  | .child _ p => p :: p.ancestors

/-- Inner while-loop of `CourseSerializer.validate_categories`: starting
from one submitted category, climb parent links and add every ancestor to
the accumulated set (the Python `set` is modelled as a duplicate-free
list; `List.insert` adds an element only when it is not yet present). -/
def climbParents : Category → List Category → List Category
  | .root _, acc => acc
  | .child _ p, acc => climbParents p (acc.insert p)

/-- Embeds `CourseSerializer.validate_categories`: `validated_categories =
set(value)`, then for each submitted category the while loop over `parent`
adds every ancestor; the set is returned as a list. -/
def validate_categories (value : List Category) : List Category :=
  value.foldl (fun acc c => climbParents c acc) value.dedup

theorem mem_climbParents (c : Category) (acc : List Category) (x : Category) :
    x ∈ climbParents c acc ↔ x ∈ acc ∨ x ∈ c.ancestors := by
  induction c generalizing acc with
  | root i => simp [climbParents, Category.ancestors]
  | child i p ih =>
      simp only [climbParents, Category.ancestors, List.mem_cons]
      rw [ih]
      simp [List.mem_insert_iff]
      tauto

theorem nodup_climbParents (c : Category) (acc : List Category)
    (h : acc.Nodup) : (climbParents c acc).Nodup := by
  induction c generalizing acc with
  | root i => simpa [climbParents] using h
  | child i p ih => exact ih _ (h.insert)

theorem mem_foldl_climbParents (l : List Category) (acc : List Category)
    (x : Category) :
    x ∈ l.foldl (fun acc c => climbParents c acc) acc ↔
      x ∈ acc ∨ ∃ d ∈ l, x ∈ d.ancestors := by
  induction l generalizing acc with
  | nil => simp
  | cons c t ih =>
      simp only [List.foldl_cons]
      rw [ih, mem_climbParents]
      simp only [List.mem_cons]
      constructor
      · rintro (⟨h | h⟩ | ⟨d, hd, hx⟩)
        · exact Or.inl h
        · exact Or.inr ⟨c, Or.inl rfl, h⟩
        · exact Or.inr ⟨d, Or.inr hd, hx⟩
      · rintro (h | ⟨d, hd | hd, hx⟩)
        · exact Or.inl (Or.inl h)
        · exact Or.inl (Or.inr (hd ▸ hx))
        · exact Or.inr ⟨d, hd, hx⟩

/-- C1. For every submitted category list (parent chains are finite by
construction of `Category`), the list returned by `validate_categories` is
exactly the closure of the submitted set under the parent relation: it
holds every submitted category, every ancestor of a submitted category,
nothing else, and has no duplicates. -/
theorem validate_categories_closure (value : List Category) :
    (∀ c : Category, c ∈ validate_categories value ↔
        c ∈ value ∨ ∃ d ∈ value, c ∈ d.ancestors)
    ∧ (validate_categories value).Nodup := by
  constructor
  · intro c
    unfold validate_categories
    rw [mem_foldl_climbParents]
    simp [List.mem_dedup]
  · have : (value.dedup).Nodup := value.nodup_dedup
    unfold validate_categories
    generalize value.dedup = acc at this ⊢
    induction value generalizing acc with
    | nil => simpa using this
    | cons c t ih => exact ih _ (nodup_climbParents c acc this)

/-! ### Partner management (partner_management/models.py, serializers.py)

An employee has a one-to-one user (its primary key) and a non-null partner
foreign key; `courses` is its many-to-many teacher link used by the course
queryset.  A branch has a non-null partner and a many-to-many employee
set.  Partners are referenced by id. -/

structure Employee where
  user : Nat
  partner : Nat
  courses : List Nat
deriving DecidableEq, Repr

structure Branch where
  id : Nat
  partner : Nat
  employees : List Employee
deriving DecidableEq, Repr

/-- Validated payload of a Branch write: `partner?` and `employees?` are
`none` when the corresponding key is absent from the submitted data. -/
structure BranchData where
  partner? : Option Nat
  employees? : Option (List Employee)
deriving DecidableEq, Repr

/-- The `partner` local of `BranchSerializer.validate`:
`data.get('partner', self.instance.partner if self.instance else None)`. -/
def branchEffectivePartner (instance? : Option Branch) (data : BranchData) :
    Option Nat :=
  match data.partner? with
  | some p => some p
  | none => instance?.map (fun b => b.partner)

/-- Embeds `BranchSerializer.validate`: when the payload carries no
`employees` key the data is returned untouched; otherwise every submitted
employee whose partner differs from the effective partner is filtered out.
The method raises nothing, hence the result is always `Except.ok`. -/
def BranchSerializer.validate (instance? : Option Branch) (data : BranchData) :
    Except String BranchData :=
  let partner := branchEffectivePartner instance? data
  match data.employees? with
  | none => .ok data
  | some employees_data =>
      .ok { data with
              employees? :=
                some (employees_data.filter
                  (fun employee => some employee.partner == partner)) }

/-- DRF `ModelSerializer.update` applied to a Branch: fields present in the
validated data are written onto the instance, absent fields are left as
they are (the `employees` many-to-many set is only re-assigned when the
key was submitted). -/
def branchUpdate (inst : Branch) (data : BranchData) :
    Except String Branch :=
  (BranchSerializer.validate (some inst) data).map fun v =>
    { inst with
        partner := v.partner?.getD inst.partner,
        employees := v.employees?.getD inst.employees }

/-- DRF `ModelSerializer.create` applied to a Branch (partner is a required
field on create, so the payload carries it). -/
def branchCreate (newId : Nat) (data : BranchData) (p : Nat) :
    Except String Branch :=
  (BranchSerializer.validate none data).map fun v =>
    { id := newId, partner := p, employees := v.employees?.getD [] }

/-- C2. For every Branch create or update that submits an employees list,
validation succeeds (no error is raised), every submitted employee whose
partner differs from the branch's (effective) partner is excluded from the
validated list, every submitted employee whose partner equals it is kept,
nothing else is added, and the stored assignment of an update is exactly
the filtered list. -/
theorem branch_validate_filters_employees (instance? : Option Branch)
    (data : BranchData) (es : List Employee) (p : Nat)
    (hes : data.employees? = some es)
    (hp : branchEffectivePartner instance? data = some p) :
    ∃ es',
      BranchSerializer.validate instance? data
        = .ok { data with employees? := some es' }
      ∧ (∀ e ∈ es, e.partner ≠ p → e ∉ es')
      ∧ (∀ e ∈ es, e.partner = p → e ∈ es')
      ∧ (∀ e ∈ es', e ∈ es)
      ∧ (∀ b, instance? = some b →
          branchUpdate b data
            = .ok { b with partner := data.partner?.getD b.partner,
                           employees := es' }) := by
  refine ⟨es.filter (fun e => some e.partner == some p), ?_, ?_, ?_, ?_, ?_⟩
  · simp [BranchSerializer.validate, hes, hp]
  · intro e he hne hmem
    rw [List.mem_filter] at hmem
    exact hne (by simpa using hmem.2)
  · intro e he hpe
    rw [List.mem_filter]
    exact ⟨he, by simp [hpe]⟩
  · intro e he
    exact (List.mem_filter.mp he).1
  · intro b hb
    subst hb
    simp only [branchUpdate, BranchSerializer.validate, hes]
    rw [show branchEffectivePartner (some b) data = some p from hp]
    cases hpd : data.partner? with
    | none => simp [Except.map, hpd, branchEffectivePartner, hpd] at hp ⊢
    | some q => simp [Except.map, hpd, branchEffectivePartner, hpd] at hp ⊢

/-- Witness for C2: a branch of partner 1 updated with an employees list
holding one matching and one mismatched employee keeps exactly the
matching one, with no error. -/
theorem branch_validate_filters_employees_witness :
    ∃ es',
      BranchSerializer.validate
          (some { id := 5, partner := 1, employees := [] })
          { partner? := none,
            employees? := some [⟨10, 1, []⟩, ⟨11, 2, []⟩] }
        = .ok { partner? := none, employees? := some es' }
      ∧ (∀ e ∈ [(⟨10, 1, []⟩ : Employee), ⟨11, 2, []⟩], e.partner ≠ 1 → e ∉ es')
      ∧ (∀ e ∈ [(⟨10, 1, []⟩ : Employee), ⟨11, 2, []⟩], e.partner = 1 → e ∈ es')
      ∧ (∀ e ∈ es', e ∈ [(⟨10, 1, []⟩ : Employee), ⟨11, 2, []⟩])
      ∧ (∀ b, (some { id := 5, partner := 1, employees := [] } : Option Branch) = some b →
          branchUpdate b { partner? := none,
                           employees? := some [⟨10, 1, []⟩, ⟨11, 2, []⟩] }
            = .ok { b with partner := b.partner, employees := es' }) := by
  have h := branch_validate_filters_employees
    (some { id := 5, partner := 1, employees := [] })
    { partner? := none, employees? := some [⟨10, 1, []⟩, ⟨11, 2, []⟩] }
    [⟨10, 1, []⟩, ⟨11, 2, []⟩] 1 rfl rfl
  simpa using h

/-- C10. For every Branch update whose payload omits the employees key, the
stored employee set after the update equals the set before it, even when
the same payload changes the branch's partner: the retained assignments
are not re-checked against the new partner. -/
theorem branch_update_omitted_employees (b : Branch) (data : BranchData)
    (h : data.employees? = none) :
    branchUpdate b data
      = .ok { b with partner := data.partner?.getD b.partner } := by
  simp [branchUpdate, BranchSerializer.validate, h, Except.map]

/-- Witness for C10: a branch of partner 1 with an employee of partner 1 is
moved to partner 2 without submitting employees; the employee stays
assigned although its partner now differs from the branch's partner. -/
theorem branch_update_omitted_employees_witness :
    branchUpdate { id := 5, partner := 1, employees := [⟨10, 1, []⟩] }
        { partner? := some 2, employees? := none }
      = .ok { id := 5, partner := 2, employees := [⟨10, 1, []⟩] }
    ∧ ∃ e ∈ ({ id := 5, partner := 2,
               employees := [⟨10, 1, []⟩] } : Branch).employees,
        e.partner ≠ (2 : Nat) := by
  constructor
  · exact branch_update_omitted_employees
      { id := 5, partner := 1, employees := [⟨10, 1, []⟩] }
      { partner? := some 2, employees? := none } rfl
  · exact ⟨⟨10, 1, []⟩, by simp, by decide⟩

/-! ### File attachment lifecycle (course_management/models.py,
user_management/models.py)

The blob store is a list of stored names; `fails` is the failure oracle of
`default_storage.delete` (an exception is modelled as `Except.error` with
the offending name).  File references are `Option String`, `none` being a
null or empty file field. -/

/-- Blob-store delete: raises when the oracle says so, otherwise removes
the name. -/
def storageDelete (fails : String → Bool) (st : List String) (name : String) :
    Except String (List String) :=
  if fails name then .error name else .ok (st.filter (fun b => b ≠ name))

/-- Blob-store delete wrapped in the try/except of the model `delete`
methods: a failure is logged and swallowed, the store is left as it was. -/
def tryStorageDelete (fails : String → Bool) (st : List String)
    (name : String) : List String :=
  match storageDelete fails st name with
  | .ok st' => st'
  | .error _ => st

/-- Last path segment, as `name.split("/")[-1]`. -/
def basename (s : String) : String := (s.splitOn "/").getLastD s

/-- One file field of `Lesson.save` (and the image field of `Course.save`
and `User.save`): if the old record has a file and the new one has a
different file, the old blob is deleted (an exception here is NOT caught);
if the old record has a file and the new one has none, the old name's last
segment is written back instead of null. Returns the resulting reference
and store. -/
def saveFileField (fails : String → Bool) (st : List String)
    (oldf selff : Option String) :
    Except String (Option String × List String) :=
  match oldf, selff with
  | some o, some s =>
      if o ≠ s then (storageDelete fails st o).map (fun st' => (some s, st'))
      else .ok (some s, st)
  | some o, none => .ok (some (basename o), st)
  | none, s => .ok (s, st)

structure Lesson where
  id : Nat
  presentation : Option String
  additional_file : Option String
deriving DecidableEq, Repr

/-- Embeds `Lesson.save`: on update (an existing row `old` is present) the
presentation field is handled first, then the additional file; on create
the record is stored as given. -/
def Lesson.save (fails : String → Bool) (st : List String)
    (old? : Option Lesson) (self : Lesson) :
    Except String (Lesson × List String) :=
  match old? with
  | none => .ok (self, st)
  | some old =>
      match saveFileField fails st old.presentation self.presentation with
      | .error e => .error e
      | .ok (p, st1) =>
          match saveFileField fails st1 old.additional_file
              self.additional_file with
          | .error e => .error e
          | .ok (a, st2) =>
              .ok ({ self with presentation := p, additional_file := a }, st2)

/-- Embeds `Lesson.delete`: each attached blob is deleted best-effort (the
try/except swallows storage failures), then the row deletion always
succeeds. -/
def Lesson.delete (fails : String → Bool) (st : List String) (self : Lesson) :
    Except String (List String) :=
  let st1 := match self.presentation with
    | some p => tryStorageDelete fails st p
    | none => st
  let st2 := match self.additional_file with
    | some a => tryStorageDelete fails st1 a
    | none => st1
  .ok st2

/-- Course record (course_management/models.py); relation fields hold ids. -/
structure Course where
  id : Nat
  name : String
  min_age : Nat
  max_age : Nat
  image : Option String
  link : Option String
  status : String
  note : Option String
  categories : List Nat
  lessons : List Nat
  teachers : List Nat
deriving DecidableEq, Repr

/-- Embeds `Course.delete`: best-effort delete of the image blob, then the
row deletion always succeeds. -/
def Course.delete (fails : String → Bool) (st : List String) (self : Course) :
    Except String (List String) :=
  let st1 := match self.image with
    | some i => tryStorageDelete fails st i
    | none => st
  .ok st1

/-- User record (user_management/models.py), with the fields the claims
touch. -/
structure User where
  id : Nat
  email : String
  is_superuser : Bool
  groups : List String
  image : Option String
deriving DecidableEq, Repr

/-- Embeds `User.delete`: best-effort delete of the image blob, then the
row deletion always succeeds. -/
def User.delete (fails : String → Bool) (st : List String) (self : User) :
    Except String (List String) :=
  let st1 := match self.image with
    | some i => tryStorageDelete fails st i
    | none => st
  .ok st1

/-- DRF update semantics for one file field: an omitted key (`none`) leaves
the instance attribute untouched, a submitted value (`some v`) overwrites
it. -/
def applyPayloadField (stored : Option String)
    (payload : Option (Option String)) : Option String :=
  match payload with
  | none => stored
  | some v => v

/-- A Lesson update through the serializer: the fetched instance gets the
submitted field values written onto it and is then saved. -/
def lessonUpdate (fails : String → Bool) (st : List String) (old : Lesson)
    (presPayload addlPayload : Option (Option String)) :
    Except String (Lesson × List String) :=
  Lesson.save fails st (some old)
    { old with
        presentation := applyPayloadField old.presentation presPayload,
        additional_file := applyPayloadField old.additional_file addlPayload }

/-- C3. A Lesson update whose presentation payload is the very reference
already stored, or which omits the presentation key, performs no blob
deletion at all (the store is returned unchanged, so no delete-then-store
cycle happens) and leaves the stored record, its presentation reference
included, exactly as it was. -/
theorem lesson_update_same_or_omitted_presentation (fails : String → Bool)
    (st : List String) (old : Lesson) (p : Option (Option String))
    (h : p = none ∨ p = some old.presentation) :
    lessonUpdate fails st old p none = .ok (old, st) := by
  have hinst :
      ({ old with
          presentation := applyPayloadField old.presentation p,
          additional_file := applyPayloadField old.additional_file none }
        : Lesson) = old := by
    rcases h with h | h <;> subst h <;> cases old <;> simp [applyPayloadField]
  rw [lessonUpdate, hinst]
  cases old with
  | mk i pres add =>
      cases pres <;> cases add <;> simp [Lesson.save, saveFileField]

/-- Witness for C3: a lesson holding `c/a.pptx` updated once with the same
reference and once with the key omitted; in both runs nothing is deleted
and the record is unchanged. -/
theorem lesson_update_same_or_omitted_presentation_witness :
    lessonUpdate (fun _ => false) ["c/a.pptx"]
        { id := 1, presentation := some "c/a.pptx", additional_file := none }
        (some (some "c/a.pptx")) none
      = .ok ({ id := 1, presentation := some "c/a.pptx",
               additional_file := none }, ["c/a.pptx"])
    ∧ lessonUpdate (fun _ => false) ["c/a.pptx"]
        { id := 1, presentation := some "c/a.pptx", additional_file := none }
        none none
      = .ok ({ id := 1, presentation := some "c/a.pptx",
               additional_file := none }, ["c/a.pptx"]) :=
  ⟨lesson_update_same_or_omitted_presentation (fun _ => false) ["c/a.pptx"]
      { id := 1, presentation := some "c/a.pptx", additional_file := none }
      (some (some "c/a.pptx")) (Or.inr rfl),
   lesson_update_same_or_omitted_presentation (fun _ => false) ["c/a.pptx"]
      { id := 1, presentation := some "c/a.pptx", additional_file := none }
      none (Or.inl rfl)⟩

/-- C4 counterexample. The claim also covers updates, but the blob
deletion performed inside `Lesson.save` (and `Course.save`, `User.save`)
is not wrapped in try/except: with a failing store, replacing
`a.pptx` by `b.pptx` propagates the storage error to the caller instead of
completing the record mutation. -/
theorem blob_failure_propagates_on_update :
    Lesson.save (fun n => n == "a.pptx") ["a.pptx"]
        (some { id := 1, presentation := some "a.pptx",
                additional_file := none })
        { id := 1, presentation := some "b.pptx", additional_file := none }
      = .error "a.pptx" := rfl

/-- C4 (amended). For every entity delete (Lesson, Course, User) and every
failure oracle, blob-store failures are swallowed by the try/except and
the record deletion completes successfully; by contrast, a blob deletion
triggered by an update (`save` replacing an old file) is not caught, and
the failure propagates. -/
theorem delete_swallows_blob_failures (fails : String → Bool)
    (st : List String) (l : Lesson) (c : Course) (u : User) :
    (∃ st', Lesson.delete fails st l = .ok st')
    ∧ (∃ st', Course.delete fails st c = .ok st')
    ∧ (∃ st', User.delete fails st u = .ok st')
    ∧ (∀ old self o s,
        old.presentation = some o → self.presentation = some s → o ≠ s →
        fails o = true →
        Lesson.save fails st (some old) self = .error o) := by
  refine ⟨⟨_, rfl⟩, ⟨_, rfl⟩, ⟨_, rfl⟩, ?_⟩
  intro old self o s ho hs hne hf
  simp [Lesson.save, saveFileField, ho, hs, hne, storageDelete, hf,
    Except.map]

/-- Witness for C4 (amended): with an always-failing store, deleting a
lesson, course and user carrying blobs still succeeds, while the update
replacing `a.pptx` propagates the failure. -/
theorem delete_swallows_blob_failures_witness :
    (∃ st', Lesson.delete (fun _ => true) ["a.pptx"]
        { id := 1, presentation := some "a.pptx", additional_file := none }
      = .ok st')
    ∧ (∃ st', Course.delete (fun _ => true) ["a.pptx"]
        { id := 2, name := "c", min_age := 3, max_age := 10,
          image := some "a.pptx", link := none, status := "hidden",
          note := none, categories := [], lessons := [], teachers := [] }
      = .ok st')
    ∧ (∃ st', User.delete (fun _ => true) ["a.pptx"]
        { id := 3, email := "e", is_superuser := false, groups := [],
          image := some "a.pptx" }
      = .ok st')
    ∧ (∀ old self o s,
        Lesson.presentation old = some o → Lesson.presentation self = some s →
        o ≠ s → (fun _ => true) o = true →
        Lesson.save (fun _ => true) ["a.pptx"] (some old) self
          = .error o) :=
  delete_swallows_blob_failures (fun _ => true) ["a.pptx"]
    { id := 1, presentation := some "a.pptx", additional_file := none }
    { id := 2, name := "c", min_age := 3, max_age := 10,
      image := some "a.pptx", link := none, status := "hidden",
      note := none, categories := [], lessons := [], teachers := [] }
    { id := 3, email := "e", is_superuser := false, groups := [],
      image := some "a.pptx" }

/-! ### User serializer (user_management/serializers.py) -/

/-- The `GroupChoices` of `UserSerializer.group`: the write-only choice
field admits only these two values. -/
def GroupChoices : List String := ["teacher", "owner"]

/-- DRF `ChoiceField.to_internal_value` for the `group` field: any value
outside the declared choices fails field validation. -/
def groupChoiceToInternal (v : String) : Except String String :=
  if v ∈ GroupChoices then .ok v
  else .error (v ++ " is not a valid choice.")

/-- Embeds `UserSerializer.create` on validated data: the `group` entry is
popped; were it the string `superuser` the `is_superuser` flag would be
set; `create_user` defaults `is_superuser` to `False`; finally the named
group is added as the sole membership. -/
def UserSerializer.create (group_name : Option String) (email : String) :
    User :=
  let is_su := group_name == some "superuser"
  { id := 0, email := email.toLower, is_superuser := is_su,
    groups := match group_name with
      | some g => [g]
      | none => [],
    image := none }

/-- A User create through the serializer: the submitted `group` value goes
through the choice-field validation (it is a required field), then
`UserSerializer.create` runs on the validated data. -/
def userCreateViaSerializer (group : String) (email : String) :
    Except String User :=
  match groupChoiceToInternal group with
  | .error e => .error e
  | .ok g => .ok (UserSerializer.create (some g) email)

/-- C5 counterexample. Creating a User with `group="superuser"` does not
produce a user with `is_superuser=True`: the value is not among the
serializer's group choices, so field validation rejects the write and no
user is created at all. -/
theorem user_create_superuser_rejected :
    userCreateViaSerializer "superuser" "a@b.c"
      = .error "superuser is not a valid choice." := rfl

/-- C5 (amended). Creating a User with `group="owner"` yields exactly one
group membership (the owner group) and `is_superuser=False`; submitting
`group="superuser"` is rejected by the group choice validation, so no user
results and the create-path branch that would set `is_superuser=True` is
unreachable through the serializer. -/
theorem user_create_group_owner_and_superuser (email : String) :
    (∃ u, userCreateViaSerializer "owner" email = .ok u
        ∧ u.groups = ["owner"] ∧ u.is_superuser = false)
    ∧ (∃ e, userCreateViaSerializer "superuser" email = .error e) := by
  refine ⟨⟨UserSerializer.create (some "owner") email, ?_, rfl, rfl⟩,
    "superuser is not a valid choice.", rfl⟩
  rfl

/-! ### Partner serializer (partner_management/serializers.py) -/

/-- Validated payload of a Partner write; `owner?` is `none` when the
`owner` key is absent from the submitted data, and carries the referenced
identity otherwise. -/
structure PartnerData where
  name : String
  owner? : Option User
deriving DecidableEq, Repr

/-- Embeds `PartnerSerializer.validate`: when the `owner` key is present
and the identity's groups filtered by the name `owner` are empty, a
validation error is raised; otherwise the data passes through. -/
def PartnerSerializer.validate (data : PartnerData) :
    Except String PartnerData :=
  match data.owner? with
  | some owner =>
      if (owner.groups.filter (fun g => g == "owner")).isEmpty then
        .error "Owner must be in an owner group."
      else .ok data
  | none => .ok data

/-- C6. A Partner write fails with a validation error exactly when the
payload sets the owner field to an identity without `owner` group
membership; an owner in the group passes, and an absent owner key is not
checked at all. -/
theorem filter_owner_empty_iff (gs : List String) :
    ((gs.filter (fun g => g == "owner")).isEmpty = true) ↔ "owner" ∉ gs := by
  induction gs with
  | nil => simp
  | cons g t ih =>
      by_cases hg : g = "owner"
      · simp [List.filter_cons, hg, ih]
      · simp [List.filter_cons, hg, ih]
        exact fun _ h => hg h.symm

theorem partner_owner_group_check (data : PartnerData) :
    ((∃ e, PartnerSerializer.validate data = .error e) ↔
      ∃ u, data.owner? = some u ∧ "owner" ∉ u.groups)
    ∧ (∀ u, data.owner? = some u → "owner" ∈ u.groups →
        PartnerSerializer.validate data = .ok data)
    ∧ (data.owner? = none → PartnerSerializer.validate data = .ok data) := by
  refine ⟨?_, ?_, ?_⟩
  · cases ho : data.owner? with
    | none => simp [PartnerSerializer.validate, ho]
    | some u =>
        have hcond := filter_owner_empty_iff u.groups
        by_cases hm : "owner" ∈ u.groups
        · simp only [PartnerSerializer.validate, ho]
          rw [if_neg (fun h => (hcond.mp h) hm)]
          simp [ho, hm]
        · simp only [PartnerSerializer.validate, ho]
          rw [if_pos (hcond.mpr hm)]
          simp [ho, hm]
  · intro u hu hm
    simp only [PartnerSerializer.validate, hu]
    rw [if_neg (fun h => ((filter_owner_empty_iff u.groups).mp h) hm)]
  · intro h
    simp [PartnerSerializer.validate, h]

/-- Witness for C6: an owner in the `owner` group passes, one only in the
`teacher` group is rejected, and a payload without the owner key passes
unchecked. -/
theorem partner_owner_group_check_witness :
    ((∃ e, PartnerSerializer.validate
        { name := "p1",
          owner? := some { id := 1, email := "t@b.c", is_superuser := false,
                           groups := ["teacher"], image := none } }
      = .error e) ↔
      ∃ u, (some { id := 1, email := "t@b.c", is_superuser := false,
                   groups := ["teacher"],
                   image := none } : Option User) = some u
        ∧ "owner" ∉ u.groups) := by
  exact (partner_owner_group_check
    { name := "p1",
      owner? := some { id := 1, email := "t@b.c", is_superuser := false,
                       groups := ["teacher"], image := none } }).1

/-! ### Course queryset (course_management/views.py,
CourseViewSet.get_queryset) -/

/-- Ordering used by `order_by('id')`. -/
def courseIdLE (a b : Course) : Prop := a.id ≤ b.id

instance : DecidableRel courseIdLE := fun a b => Nat.decLe a.id b.id

instance : IsTotal Course courseIdLE := ⟨fun a b => Nat.le_total a.id b.id⟩

instance : IsTrans Course courseIdLE := ⟨fun _ _ _ h h' => Nat.le_trans h h'⟩

/-- The `order_by('id')` of the initial queryset. -/
def orderById (l : List Course) : List Course := List.insertionSort courseIdLE l

/-- Character-list containment used to model `icontains`. -/
def containsChars : List Char → List Char → Bool
  | _, [] => true
  | [], _ :: _ => false
  | h :: t, needle => needle.isPrefixOf (h :: t) || containsChars t needle

/-- Case-insensitive substring match (`__icontains`). -/
def icontains (hay needle : String) : Bool :=
  containsChars hay.toLower.data needle.toLower.data

/-- Database snapshot backing the queryset: the course table, the employee
table (whose `courses` list is the teacher many-to-many link) and the
category id-to-name table. -/
structure Db where
  courses : List Course
  employees : List Employee
  categoryNames : List (Nat × String)
deriving Repr

/-- The `teacher__user=request.user` join: the course is reachable through
an Employee row whose user is the caller. -/
def teachesCourse (db : Db) (userId : Nat) (c : Course) : Bool :=
  db.employees.any (fun e => e.user == userId && e.courses.contains c.id)

/-- Query parameters of the course list endpoint; `none` is an absent (or
empty, hence falsy) parameter. -/
structure CourseQueryParams where
  teacher? : Option Nat
  search? : Option String
  status? : Option String
  category? : Option String
  age? : Option Nat
deriving Repr

/-- Embeds `CourseViewSet.get_queryset`: all courses ordered by id, then
the teacher-group row restriction, then each query-parameter filter in the
order of the source. -/
def CourseViewSet.get_queryset (db : Db) (callerId : Nat)
    (callerGroups : List String) (q : CourseQueryParams) : List Course :=
  let queryset := orderById db.courses
  let queryset := if callerGroups.contains "teacher"
    then queryset.filter (fun c => teachesCourse db callerId c) else queryset
  let queryset := match q.teacher? with
    | some t => queryset.filter (fun c =>
        db.employees.any (fun e => e.user == t && e.courses.contains c.id))
    | none => queryset
  let queryset := match q.search? with
    | some s => queryset.filter (fun c => icontains c.name s)
    | none => queryset
  let queryset := match q.status? with
    | some s => queryset.filter (fun c => c.status == s)
    | none => queryset
  let queryset := match q.category? with
    | some s => queryset.filter (fun c => c.categories.any (fun pr =>
        db.categoryNames.any (fun cn => cn.1 == pr && icontains cn.2 s)))
    | none => queryset
  let queryset := match q.age? with
    | some a => queryset.filter (fun c =>
        decide (c.min_age ≤ a) && decide (a ≤ c.max_age))
    | none => queryset
  queryset

/-- C7. For a caller in the teacher group, listing courses with age
parameter 10 returns exactly the courses whose closed age interval holds
10 and which are linked to the caller through an Employee row's course
set, sorted by id ascending. -/
theorem teacher_age_query (db : Db) (callerId : Nat) (gs : List String)
    (hg : gs.contains "teacher" = true) :
    (∀ c, c ∈ CourseViewSet.get_queryset db callerId gs
            ⟨none, none, none, none, some 10⟩ ↔
        c ∈ db.courses ∧ c.min_age ≤ 10 ∧ 10 ≤ c.max_age ∧
          ∃ e ∈ db.employees, e.user = callerId ∧ c.id ∈ e.courses)
    ∧ (CourseViewSet.get_queryset db callerId gs
        ⟨none, none, none, none, some 10⟩).Sorted courseIdLE := by
  have hres : CourseViewSet.get_queryset db callerId gs
      ⟨none, none, none, none, some 10⟩
      = ((orderById db.courses).filter
            (fun c => teachesCourse db callerId c)).filter
          (fun c => decide (c.min_age ≤ 10) && decide (10 ≤ c.max_age)) := by
    unfold CourseViewSet.get_queryset
    rw [hg]
    rfl
  rw [hres]
  constructor
  · intro c
    rw [List.mem_filter, List.mem_filter, orderById,
      (List.perm_insertionSort courseIdLE db.courses).mem_iff]
    simp only [teachesCourse, List.any_eq_true, Bool.and_eq_true, beq_iff_eq,
      List.elem_iff, decide_eq_true_eq]
    constructor
    · rintro ⟨⟨hmem, e, he, heu, hec⟩, hmin, hmax⟩
      exact ⟨hmem, hmin, hmax, e, he, heu, hec⟩
    · rintro ⟨hmem, hmin, hmax, e, he, heu, hec⟩
      exact ⟨⟨hmem, e, he, heu, hec⟩, hmin, hmax⟩
  · exact ((List.sorted_insertionSort courseIdLE db.courses).filter _).filter _

/-- Concrete data for the C7 witness: employee 7 teaches courses 1 and 2;
course 1 fails the age filter, course 3 is not taught by the caller. -/
def dbW : Db :=
  { courses :=
      [ { id := 3, name := "C", min_age := 8, max_age := 12, image := none,
          link := none, status := "active", note := none, categories := [],
          lessons := [], teachers := [] },
        { id := 1, name := "A", min_age := 11, max_age := 12, image := none,
          link := none, status := "active", note := none, categories := [],
          lessons := [], teachers := [] },
        { id := 2, name := "B", min_age := 8, max_age := 12, image := none,
          link := none, status := "active", note := none, categories := [],
          lessons := [], teachers := [] } ],
    employees := [ { user := 7, partner := 1, courses := [1, 2] } ],
    categoryNames := [] }

/-- Witness for C7: with `dbW` and caller 7 in the teacher group, course 2
is returned, course 1 (age range misses 10) is not, and the result is
sorted by id. -/
theorem teacher_age_query_witness :
    ({ id := 2, name := "B", min_age := 8, max_age := 12, image := none,
       link := none, status := "active", note := none, categories := [],
       lessons := [], teachers := [] } : Course)
        ∈ CourseViewSet.get_queryset dbW 7 ["teacher"]
            ⟨none, none, none, none, some 10⟩
    ∧ ({ id := 1, name := "A", min_age := 11, max_age := 12, image := none,
         link := none, status := "active", note := none, categories := [],
         lessons := [], teachers := [] } : Course)
        ∉ CourseViewSet.get_queryset dbW 7 ["teacher"]
            ⟨none, none, none, none, some 10⟩
    ∧ (CourseViewSet.get_queryset dbW 7 ["teacher"]
        ⟨none, none, none, none, some 10⟩).Sorted courseIdLE := by
  have h := teacher_age_query dbW 7 ["teacher"] (by decide)
  refine ⟨(h.1 _).mpr (by decide), fun hm => ?_, h.2⟩
  exact absurd ((h.1 _).mp hm) (by decide)

/-! ### Token obtain view (user_management/views.py,
CustomTokenObtainPairView) -/

structure SetCookie where
  key : String
  value : String
  path : String
  httponly : Bool
  secure : Bool
  samesite : String
deriving DecidableEq, Repr

inductive ResponseBody where
  | tokens (access refresh : String)
  | detail (msg : String)
  | errorDetail (msg : String)
deriving DecidableEq, Repr

structure Response where
  status : Nat
  body : ResponseBody
  cookies : List SetCookie
deriving DecidableEq, Repr

/-- Modelled from the spec: the base `TokenObtainPairView.post` of the JWT
library (a dependency, not part of this repository's sources) issues a
token pair from email and password, and raises an authentication failure
on bad credentials which the framework renders as a 401 response with no
cookies. The credential check itself is abstracted as `auth`. -/
def baseTokenObtainPost (auth : String → String → Option (String × String))
    (email password : String) : Except Response (String × String) :=
  match auth email password with
  | some t => .ok t
  | none =>
      .error { status := 401,
               body := .errorDetail
                 "No active account found with the given credentials",
               cookies := [] }

/-- Embeds `CustomTokenObtainPairView.post`: a credential failure inside
`super().post` propagates before any cookie is set; on success the access
token is set as an HTTP-only cookie on path `/api` and the refresh token
on path `/auth`, secure outside debug with samesite None, and the response
body is replaced by the detail message. -/
def CustomTokenObtainPairView.post
    (auth : String → String → Option (String × String)) (debug : Bool)
    (email password : String) : Response :=
  match baseTokenObtainPost auth email password with
  | .error e => e
  | .ok (access, refresh) =>
      { status := 200,
        body := .detail "Tokens set in cookies",
        cookies :=
          [ { key := "access_token", value := access, path := "/api",
              httponly := true, secure := !debug, samesite := "None" },
            { key := "refresh_token", value := refresh, path := "/auth",
              httponly := true, secure := !debug, samesite := "None" } ] }

/-- C8. With valid credentials the token endpoint answers 200 whose body
is exactly the detail message (no token in the body), an HTTP-only
`access_token` cookie on path `/api` and an HTTP-only `refresh_token`
cookie on path `/auth`; with invalid credentials it answers 401 and sets
no cookie at all. -/
theorem token_obtain_cookie_contract
    (auth : String → String → Option (String × String)) (debug : Bool)
    (email password : String) :
    (∀ a r, auth email password = some (a, r) →
      (CustomTokenObtainPairView.post auth debug email password).status = 200
      ∧ (CustomTokenObtainPairView.post auth debug email password).body
          = .detail "Tokens set in cookies"
      ∧ (∀ a' r',
          (CustomTokenObtainPairView.post auth debug email password).body
            ≠ .tokens a' r')
      ∧ (∀ ck ∈ (CustomTokenObtainPairView.post auth debug
            email password).cookies, ck.httponly = true)
      ∧ (CustomTokenObtainPairView.post auth debug email password).cookies.map
            (fun ck => (ck.key, ck.path))
          = [("access_token", "/api"), ("refresh_token", "/auth")])
    ∧ (auth email password = none →
      (CustomTokenObtainPairView.post auth debug email password).status = 401
      ∧ (CustomTokenObtainPairView.post auth debug
          email password).cookies = []) := by
  constructor
  · intro a r h
    refine ⟨?_, ?_, ?_, ?_, ?_⟩ <;>
      simp [CustomTokenObtainPairView.post, baseTokenObtainPost, h]
  · intro h
    constructor <;>
      simp [CustomTokenObtainPairView.post, baseTokenObtainPost, h]

/-- Witness for C8: a one-account credential checker; the good login gets
the two scoped cookies and the detail body, the bad one gets 401 and no
cookie. -/
theorem token_obtain_cookie_contract_witness :
    ((CustomTokenObtainPairView.post
        (fun e p => if e == "o@x.com" && p == "pw"
          then some ("A", "R") else none)
        true "o@x.com" "pw").status = 200
      ∧ (CustomTokenObtainPairView.post
          (fun e p => if e == "o@x.com" && p == "pw"
            then some ("A", "R") else none)
          true "o@x.com" "pw").body = .detail "Tokens set in cookies"
      ∧ (∀ a' r',
          (CustomTokenObtainPairView.post
            (fun e p => if e == "o@x.com" && p == "pw"
              then some ("A", "R") else none)
            true "o@x.com" "pw").body ≠ .tokens a' r')
      ∧ (∀ ck ∈ (CustomTokenObtainPairView.post
            (fun e p => if e == "o@x.com" && p == "pw"
              then some ("A", "R") else none)
            true "o@x.com" "pw").cookies, ck.httponly = true)
      ∧ (CustomTokenObtainPairView.post
            (fun e p => if e == "o@x.com" && p == "pw"
              then some ("A", "R") else none)
            true "o@x.com" "pw").cookies.map (fun ck => (ck.key, ck.path))
          = [("access_token", "/api"), ("refresh_token", "/auth")])
    ∧ ((CustomTokenObtainPairView.post
          (fun e p => if e == "o@x.com" && p == "pw"
            then some ("A", "R") else none)
          true "o@x.com" "wrong").status = 401
      ∧ (CustomTokenObtainPairView.post
          (fun e p => if e == "o@x.com" && p == "pw"
            then some ("A", "R") else none)
          true "o@x.com" "wrong").cookies = []) :=
  ⟨(token_obtain_cookie_contract
      (fun e p => if e == "o@x.com" && p == "pw"
        then some ("A", "R") else none)
      true "o@x.com" "pw").1 "A" "R" rfl,
   (token_obtain_cookie_contract
      (fun e p => if e == "o@x.com" && p == "pw"
        then some ("A", "R") else none)
      true "o@x.com" "wrong").2 rfl⟩

/-! ### Owner-restricted course update (course_management/views.py,
get_serializer_class; serializers.py, CourseSerializerUpdateTeachers) -/

/-- Submitted payload of a Course write; `none` marks an absent key, and
for nullable fields `some none` an explicit null. -/
structure CoursePayload where
  name? : Option String
  min_age? : Option Nat
  max_age? : Option Nat
  image? : Option (Option String)
  link? : Option (Option String)
  status? : Option String
  note? : Option (Option String)
  categories? : Option (List Nat)
  lessons? : Option (List Nat)
  teachers? : Option (List Nat)
deriving Repr

/-- Embeds an update through `CourseSerializerUpdateTeachers`:
`Meta.fields = ['teachers']`, so only the `teachers` key of the payload is
deserialized; each submitted pk must lie in the queryset of employees
whose user is in the teacher group (`isTeacherEmp`), else the related
field rejects it. -/
def CourseSerializerUpdateTeachers.update (isTeacherEmp : Nat → Bool)
    (inst : Course) (payload : CoursePayload) : Except String Course :=
  match payload.teachers? with
  | none => .ok inst
  | some ts =>
      if ts.all isTeacherEmp then .ok { inst with teachers := ts }
      else .error "Invalid pk"

/-- Embeds an update through the default `CourseSerializer` (all fields
writable); categories arrive already closed by `validate_categories`. -/
def CourseSerializer.update (inst : Course) (p : CoursePayload) : Course :=
  { id := inst.id,
    name := p.name?.getD inst.name,
    min_age := p.min_age?.getD inst.min_age,
    max_age := p.max_age?.getD inst.max_age,
    image := p.image?.getD inst.image,
    link := p.link?.getD inst.link,
    status := p.status?.getD inst.status,
    note := p.note?.getD inst.note,
    categories := p.categories?.getD inst.categories,
    lessons := p.lessons?.getD inst.lessons,
    teachers := p.teachers?.getD inst.teachers }

/-- Embeds `CourseViewSet.get_serializer_class` applied to an update: an
owner-group caller on the `update` or `partial_update` action goes through
the teachers-only serializer, every other caller through the default
one. -/
def courseUpdateDispatch (callerGroups : List String) (action : String)
    (isTeacherEmp : Nat → Bool) (inst : Course) (p : CoursePayload) :
    Except String Course :=
  if callerGroups.contains "owner"
      && (action == "update" || action == "partial_update") then
    CourseSerializerUpdateTeachers.update isTeacherEmp inst p
  else
    .ok (CourseSerializer.update inst p)

/-- C9. For every Course update or partial update by an owner-group
caller, a successful result differs from the stored course in the teacher
list alone: name, ages, image, link, status, note, categories and lessons
keep their stored values whatever the payload attempted, and the teacher
list becomes the submitted one (or stays unchanged when not submitted). -/
theorem owner_update_changes_only_teachers (callerGroups : List String)
    (action : String) (isTeacherEmp : Nat → Bool) (inst : Course)
    (p : CoursePayload) (c' : Course)
    (hown : callerGroups.contains "owner" = true)
    (hact : action = "update" ∨ action = "partial_update")
    (hok : courseUpdateDispatch callerGroups action isTeacherEmp inst p
        = .ok c') :
    c'.id = inst.id ∧ c'.name = inst.name ∧ c'.min_age = inst.min_age
    ∧ c'.max_age = inst.max_age ∧ c'.image = inst.image
    ∧ c'.link = inst.link ∧ c'.status = inst.status ∧ c'.note = inst.note
    ∧ c'.categories = inst.categories ∧ c'.lessons = inst.lessons
    ∧ c'.teachers = p.teachers?.getD inst.teachers := by
  have hmem : "owner" ∈ callerGroups := List.elem_iff.mp hown
  have hcond : (callerGroups.contains "owner"
      && (action == "update" || action == "partial_update")) = true := by
    rcases hact with h | h <;> simp [h, hmem]
  rw [courseUpdateDispatch, if_pos hcond] at hok
  unfold CourseSerializerUpdateTeachers.update at hok
  cases hts : p.teachers? with
  | none =>
      rw [hts] at hok
      simp only [Except.ok.injEq] at hok
      subst hok
      simp [hts]
  | some ts =>
      rw [hts] at hok
      by_cases hall : ts.all isTeacherEmp = true
      · simp only [hall, if_true, Except.ok.injEq] at hok
        subst hok
        simp [hts]
      · simp [hall] at hok

/-- Witness for C9: an owner-group partial update submitting a new name
and a new teacher list leaves every field but the teacher list at its
stored value. -/
theorem owner_update_changes_only_teachers_witness :
    ({ id := 1, name := "Old", min_age := 5, max_age := 9,
       image := some "i.png", link := none, status := "active",
       note := none, categories := [3], lessons := [8],
       teachers := [2] } : Course).teachers = [2]
    ∧ (({ id := 1, name := "Old", min_age := 5, max_age := 9,
          image := some "i.png", link := none, status := "active",
          note := none, categories := [3], lessons := [8],
          teachers := [4] } : Course).name = "Old"
       ∧ ({ id := 1, name := "Old", min_age := 5, max_age := 9,
            image := some "i.png", link := none, status := "active",
            note := none, categories := [3], lessons := [8],
            teachers := [4] } : Course).teachers = [4]) := by
  have h := owner_update_changes_only_teachers ["owner"] "partial_update"
    (fun _ => true)
    { id := 1, name := "Old", min_age := 5, max_age := 9,
      image := some "i.png", link := none, status := "active",
      note := none, categories := [3], lessons := [8], teachers := [2] }
    { name? := some "New", min_age? := none, max_age? := none,
      image? := none, link? := none, status? := none, note? := none,
      categories? := none, lessons? := none, teachers? := some [4] }
    { id := 1, name := "Old", min_age := 5, max_age := 9,
      image := some "i.png", link := none, status := "active",
      note := none, categories := [3], lessons := [8], teachers := [4] }
    rfl (Or.inr rfl) rfl
  exact ⟨rfl, h.2.1, h.2.2.2.2.2.2.2.2.2.2⟩

end Backoffice
